import Mathlib

/-!
Verification of the JPEG decoder wrapper and orientation metadata model of the
`image` crate. The Rust source embedded here consists of
`src/metadata.rs` (the `Orientation` enum and its pure functions) and
`src/codecs/jpeg/decoder.rs` (the `JpegDecoder` wrapper around the external
`zune-jpeg` engine). External types (`Limits`, `ColorType`, the engine's
colorspace and error enums, and the engine's decode behaviour) are not part of
the source tree; they are modelled from the specification and marked as such.
-/

namespace ImageCrate

/-- The `Orientation` enum from `src/metadata.rs`: a closed 8-variant
classification of Exif orientation transforms. -/
inductive Orientation where
  | NoTransforms
  | Rotate90
  | Rotate180
  | Rotate270
  | FlipHorizontal
  | FlipVertical
  | Rotate90FlipH
  | Rotate270FlipH
deriving DecidableEq, Repr

namespace Orientation

/-- `Orientation::from_exif` from `src/metadata.rs`: codes 1-8 map to the 8
variants, code 0 and codes 9 and above map to `none`. -/
def from_exif (exif_orientation : Nat) : Option Orientation :=
  match exif_orientation with
  | 1 => some .NoTransforms
  | 2 => some .FlipHorizontal
  | 3 => some .Rotate180
  | 4 => some .FlipVertical
  | 5 => some .Rotate90FlipH
  | 6 => some .Rotate90
  | 7 => some .Rotate270FlipH
  | 8 => some .Rotate270
  | _ => none

/-- `Orientation::to_exif` from `src/metadata.rs`. -/
def to_exif : Orientation → Nat
  | .NoTransforms => 1
  | .FlipHorizontal => 2
  | .Rotate180 => 3
  | .FlipVertical => 4
  | .Rotate90FlipH => 5
  | .Rotate90 => 6
  | .Rotate270FlipH => 7
  | .Rotate270 => 8

/-- `Orientation::applies_in_place` from `src/metadata.rs`. -/
def applies_in_place : Orientation → Bool
  | .NoTransforms => true
  | .Rotate90 => false
  | .Rotate180 => true
  | .Rotate270 => false
  | .FlipHorizontal => true
  | .FlipVertical => true
  | .Rotate90FlipH => false
  | .Rotate270FlipH => false

end Orientation

/-- Modelled from the spec: `zune_core::colorspace::ColorSpace`, the external
engine's native colorspace enumeration. Its definition is not in the source
tree; the variants named by `to_supported_color_space` and `ColorType::from_jpeg`
(RGB, RGBA, Luma, LumaA) appear in the source, and the remaining variants stand
for the engine's other native spaces, which the source handles with a
catch-all. -/
inductive ZuneColorSpace where
  | RGB
  | RGBA
  | YCbCr
  | Luma
  | LumaA
  | YCCK
  | CMYK
  | BGR
  | BGRA
  | Unknown
deriving DecidableEq, Repr

/-- Modelled from the spec: number of colour components of an engine
colorspace; the engine produces one byte per component per pixel of its
(8-bit) output colorspace. -/
def ZuneColorSpace.nComponents : ZuneColorSpace → Nat
  | .RGB => 3
  | .RGBA => 4
  | .YCbCr => 3
  | .Luma => 1
  | .LumaA => 2
  | .YCCK => 4
  | .CMYK => 4
  | .BGR => 3
  | .BGRA => 4
  | .Unknown => 0

/-- Modelled from the spec: the crate's `ColorType` enumeration of output pixel
layouts (`crate::color::ColorType` is not in the source tree). The four 8-bit
layouts are the ones the JPEG wrapper can advertise; the other variants exist
in the crate for other formats. -/
inductive ColorType where
  | L8
  | La8
  | Rgb8
  | Rgba8
  | L16
  | La16
  | Rgb16
  | Rgba16
  | Rgb32F
  | Rgba32F
deriving DecidableEq, Repr

/-- Modelled from the spec: `bytes_per_pixel` of a `ColorType`, used in the
advertised byte length `width * height * bytes_per_pixel(color_type())`. -/
def ColorType.bytes_per_pixel : ColorType → Nat
  | .L8 => 1
  | .La8 => 2
  | .Rgb8 => 3
  | .Rgba8 => 4
  | .L16 => 2
  | .La16 => 4
  | .Rgb16 => 6
  | .Rgba16 => 8
  | .Rgb32F => 12
  | .Rgba32F => 16

/-- Modelled from the spec: `image::io::Limits` (not in the source tree) -
three independent optional bounds, each unset field meaning unbounded. -/
structure Limits where
  max_image_width : Option Nat
  max_image_height : Option Nat
  max_alloc : Option Nat
deriving DecidableEq, Repr

/-- Modelled from the spec: `Limits::no_limits()` - all bounds unset. -/
def Limits.no_limits : Limits :=
  { max_image_width := none, max_image_height := none, max_alloc := none }

/-- Modelled from the spec: `zune_jpeg::errors::DecodeErrors`, the engine's
native error enumeration (not in the source tree). The source's
`ImageError::from_jpeg` names `Unsupported` and `LargeDimensions` and handles
every other variant with a catch-all; the remaining constructors stand for
those other variants. -/
inductive DecodeErrors where
  | Unsupported (desc : String)
  | LargeDimensions (n : Nat)
  | Format (s : String)
  | HuffmanDecode (s : String)
  | CorruptData (s : String)
  | ZeroError
  | ExhaustedData
deriving DecidableEq, Repr

/-- Diagnostic payload of a `Decoding` error: either the length-mismatch
message built by `read_image` (carrying the two lengths it interpolates) or a
wrapped engine error, as in `DecodingError::new(..)`. -/
inductive DecodingDiag where
  | lengthMismatch (actual advertised : Nat)
  | engine (e : DecodeErrors)
deriving DecidableEq, Repr

/-- Modelled from the spec: the `UnsupportedErrorKind` payload of an
`Unsupported` error - a feature description. -/
inductive UnsupportedErrorKind where
  | GenericFeature (desc : String)
deriving DecidableEq, Repr

/-- Modelled from the spec: the sub-kind of a `Limits` error, distinguishing
dimension violations from allocation violations. -/
inductive LimitErrorKind where
  | DimensionError
  | InsufficientMemory
deriving DecidableEq, Repr

/-- Modelled from the spec: the crate's error taxonomy (`ImageError` is not in
the source tree): Unsupported, Limits, Decoding, I/O. -/
inductive ImageError where
  | Unsupported (kind : UnsupportedErrorKind)
  | Limits (kind : LimitErrorKind)
  | Decoding (diag : DecodingDiag)
  | IoError
deriving DecidableEq, Repr

/-- `to_supported_color_space` from `src/codecs/jpeg/decoder.rs`:
RGB, RGBA, Luma and LumaA are kept, every other native space is converted to
RGB during decoding. -/
def to_supported_color_space (orig : ZuneColorSpace) : ZuneColorSpace :=
  match orig with
  | .RGB | .RGBA | .Luma | .LumaA => orig
  | _ => .RGB

/-- `ColorType::from_jpeg` from `src/codecs/jpeg/decoder.rs`, with the
source's `unreachable!()` branch made explicit as `none`: the source first
normalizes the colorspace with `to_supported_color_space` and then matches,
treating the non-supported variants as impossible. -/
def ColorType.from_jpegOpt (colorspace : ZuneColorSpace) : Option ColorType :=
  match to_supported_color_space colorspace with
  | .RGB => some .Rgb8
  | .RGBA => some .Rgba8
  | .Luma => some .L8
  | .LumaA => some .La8
  | _ => none

/-- `ColorType::from_jpeg` as the total function the source exposes: the
default is never used because the `unreachable!()` branch is never taken
(proved below). -/
def ColorType.from_jpeg (colorspace : ZuneColorSpace) : ColorType :=
  (ColorType.from_jpegOpt colorspace).getD .Rgb8

/-- `ImageError::from_jpeg` from `src/codecs/jpeg/decoder.rs`: translation of
the engine's error enumeration into the local taxonomy. -/
def ImageError.from_jpeg (err : DecodeErrors) : ImageError :=
  match err with
  | .Unsupported desc =>
      ImageError.Unsupported (UnsupportedErrorKind.GenericFeature desc)
  | .LargeDimensions _ =>
      ImageError.Limits LimitErrorKind.DimensionError
  | err => ImageError.Decoding (DecodingDiag.engine err)

/-- Modelled from the spec: a parseable JPEG input as the engine's header-only
parse sees it - declared width, height and native colorspace - together with
the pixel payload the engine's full decode would produce. The bit-level decode
is out of scope and delegated to the opaque engine. -/
structure JpegInput where
  width : Nat
  height : Nat
  colorspace : ZuneColorSpace
  pixels : List Nat
deriving DecidableEq, Repr

/-- Modelled from the spec: `zune_core::options::DecoderOptions` - the
engine's configuration surface used by the wrapper: the requested output
colorspace (`jpeg_set_out_colorspace`) and the optional width/height caps
(`set_max_width` / `set_max_height`). -/
structure DecoderOptions where
  out_colorspace : ZuneColorSpace
  max_width : Option Nat
  max_height : Option Nat
deriving DecidableEq, Repr

/-- Modelled from the spec: `DecoderOptions::default()` before the wrapper
configures it - no caps installed, engine-default output colorspace. -/
def DecoderOptions.default : DecoderOptions :=
  { out_colorspace := .YCbCr, max_width := none, max_height := none }

/-- Modelled from the spec: a configured cap is exceeded exactly when the cap
is installed and the declared dimension is larger than it. -/
def capExceeded (cap : Option Nat) (declared : Nat) : Bool :=
  match cap with
  | some c => declared > c
  | none => false

/-- Modelled from the spec: the engine's full decode under a configuration.
The engine validates the header-declared dimensions against its installed
width/height caps before any pixel-sized buffer is allocated, failing with its
`LargeDimensions` error; otherwise it produces the pixel payload converted to
the requested output colorspace. -/
def zuneDecode (opts : DecoderOptions) (input : JpegInput) :
    Except DecodeErrors (List Nat) :=
  if capExceeded opts.max_width input.width ∨ capExceeded opts.max_height input.height then
    Except.error (DecodeErrors.LargeDimensions (max input.width input.height))
  else
    Except.ok input.pixels

/-- The `JpegDecoder` state from `src/codecs/jpeg/decoder.rs`: the owned input
bytes (here the parsed view of them), the header facts captured at
construction, and the current limits. The `PhantomData` marker has no runtime
content and is omitted. -/
structure JpegDecoder where
  input : JpegInput
  orig_color_space : ZuneColorSpace
  width : Nat
  height : Nat
  limits : Limits
deriving DecidableEq, Repr

namespace JpegDecoder

/-- `JpegDecoder::new` from `src/codecs/jpeg/decoder.rs` on a parseable input:
reads the whole input, parses headers only, captures dimensions and native
colorspace, and installs `Limits::no_limits()`. -/
def new (input : JpegInput) : JpegDecoder :=
  { input := input
    orig_color_space := input.colorspace
    width := input.width
    height := input.height
    limits := Limits.no_limits }

/-- `dimensions` from `src/codecs/jpeg/decoder.rs`. -/
def dimensions (d : JpegDecoder) : Nat × Nat := (d.width, d.height)

/-- `color_type` from `src/codecs/jpeg/decoder.rs`. -/
def color_type (d : JpegDecoder) : ColorType :=
  ColorType.from_jpeg d.orig_color_space

/-- Modelled from the spec: `total_bytes` (the `ImageDecoder` trait default,
not in the source tree) - the advertised byte length
`width * height * bytes_per_pixel(color_type())`. -/
def total_bytes (d : JpegDecoder) : Nat :=
  d.width * d.height * (d.color_type).bytes_per_pixel

/-- `set_limits` from `src/codecs/jpeg/decoder.rs`: stores the new limits and
returns `Ok(())`. -/
def set_limits (d : JpegDecoder) (limits : Limits) : Except ImageError JpegDecoder :=
  Except.ok { d with limits := limits }

end JpegDecoder

/-- `new_zune_decoder` from `src/codecs/jpeg/decoder.rs`, as the configuration
it installs on the fresh engine: default options, the output colorspace set to
the normalized space, and each of `max_image_width` / `max_image_height`
translated into the engine's cap when present. -/
def new_zune_decoder (orig_color_space : ZuneColorSpace) (limits : Limits) :
    DecoderOptions :=
  let target_color_space := to_supported_color_space orig_color_space
  let options := { DecoderOptions.default with out_colorspace := target_color_space }
  let options :=
    match limits.max_image_width with
    | some max_width => { options with max_width := some max_width }
    | none => options
  match limits.max_image_height with
  | some max_height => { options with max_height := some max_height }
  | none => options

namespace JpegDecoder

/-- `into_reader` (the `Cursor` contents it wraps) from
`src/codecs/jpeg/decoder.rs`: builds a fresh engine via `new_zune_decoder`,
decodes, translates errors with `ImageError::from_jpeg`, and on success wraps
the decoded bytes in a cursor at position 0. -/
def into_reader (d : JpegDecoder) : Except ImageError (List Nat × Nat) :=
  match zuneDecode (new_zune_decoder d.orig_color_space d.limits) d.input with
  | .error e => Except.error (ImageError.from_jpeg e)
  | .ok data => Except.ok (data, 0)

/-- `read_image` from `src/codecs/jpeg/decoder.rs`: rejects a buffer whose
length differs from the advertised length with a `Decoding` error, otherwise
builds a fresh engine via `new_zune_decoder` and decodes into the buffer. -/
def read_image (d : JpegDecoder) (buf : List Nat) : Except ImageError (List Nat) :=
  let advertised_len := d.total_bytes
  let actual_len := buf.length
  if actual_len ≠ advertised_len then
    Except.error (ImageError.Decoding (DecodingDiag.lengthMismatch actual_len advertised_len))
  else
    match zuneDecode (new_zune_decoder d.orig_color_space d.limits) d.input with
    | .error e => Except.error (ImageError.from_jpeg e)
    | .ok data => Except.ok data

end JpegDecoder

/-- The `JpegReader` wrapper from `src/codecs/jpeg/decoder.rs`: a
`Cursor<Vec<u8>>` - the decoded byte contents and the current read position. -/
structure JpegReader where
  contents : List Nat
  pos : Nat
deriving DecidableEq, Repr

namespace JpegReader

/-- The bytes remaining after the current position. -/
def remaining (r : JpegReader) : List Nat := r.contents.drop r.pos

/-- The default sequential `read_to_end` of the inner `Cursor<Vec<u8>>`:
appends every byte from the current position to the end onto `buf`, returns
how many were read, and advances the position to the end of the contents. -/
def cursor_read_to_end (r : JpegReader) (buf : List Nat) :
    List Nat × Nat × JpegReader :=
  (buf ++ r.remaining, r.remaining.length,
    { r with pos := max r.pos r.contents.length })

/-- `JpegReader`'s specialized `read_to_end` from `src/codecs/jpeg/decoder.rs`:
when the position is 0 and the output buffer is empty it swaps `buf` with the
cursor's underlying vector and returns the new `buf.len()`; otherwise it
delegates to the cursor's own `read_to_end`. -/
def read_to_end (r : JpegReader) (buf : List Nat) :
    List Nat × Nat × JpegReader :=
  if r.pos = 0 ∧ buf = [] then
    (r.contents, r.contents.length, { contents := buf, pos := r.pos })
  else
    cursor_read_to_end r buf

end JpegReader

/-- The spec's error categories, used to state the error-translation claim:
Unsupported, Limits with the dimension sub-kind, Decoding, and everything
else. -/
inductive ErrorCategory where
  | unsupportedCat
  | limitsDimensionCat
  | decodingCat
  | otherCat
deriving DecidableEq, Repr

/-- The local error category of an `ImageError`, following the spec's
taxonomy (Unsupported / Limits-dimension / Decoding / other). -/
def ImageError.category : ImageError → ErrorCategory
  | .Unsupported _ => .unsupportedCat
  | .Limits .DimensionError => .limitsDimensionCat
  | .Limits _ => .otherCat
  | .Decoding _ => .decodingCat
  | .IoError => .otherCat

/-- Modelled from the spec: the category the spec's error-translation table
assigns to each engine error variant ("feature not supported" maps to
Unsupported, "declared dimensions too large" maps to Limits/dimension,
anything else maps to Decoding). -/
def specJpegErrorCategory : DecodeErrors → ErrorCategory
  | .Unsupported _ => .unsupportedCat
  | .LargeDimensions _ => .limitsDimensionCat
  | _ => .decodingCat

lemma from_jpegOpt_eq (cs : ZuneColorSpace) :
    ColorType.from_jpegOpt cs = some (ColorType.from_jpeg cs) := by
  cases cs <;> rfl

lemma new_zune_decoder_out_colorspace (cs : ZuneColorSpace) (l : Limits) :
    (new_zune_decoder cs l).out_colorspace = to_supported_color_space cs := by
  rcases l with ⟨mw, mh, ma⟩
  cases mw <;> cases mh <;> rfl

lemma new_zune_decoder_caps (cs : ZuneColorSpace) (l : Limits) :
    (new_zune_decoder cs l).max_width = l.max_image_width
      ∧ (new_zune_decoder cs l).max_height = l.max_image_height := by
  rcases l with ⟨mw, mh, ma⟩
  cases mw <;> cases mh <;> exact ⟨rfl, rfl⟩

lemma new_zune_decoder_congr (cs : ZuneColorSpace) {l1 l2 : Limits}
    (hw : l1.max_image_width = l2.max_image_width)
    (hh : l1.max_image_height = l2.max_image_height) :
    new_zune_decoder cs l1 = new_zune_decoder cs l2 := by
  rcases l1 with ⟨mw1, mh1, ma1⟩
  rcases l2 with ⟨mw2, mh2, ma2⟩
  simp only [Limits.max_image_width, Limits.max_image_height] at hw hh
  subst hw; subst hh
  rfl

lemma read_image_engine (d : JpegDecoder) (buf : List Nat)
    (hbuf : buf.length = d.total_bytes) :
    JpegDecoder.read_image d buf
      = match zuneDecode (new_zune_decoder d.orig_color_space d.limits) d.input with
        | .error e => Except.error (ImageError.from_jpeg e)
        | .ok data => Except.ok data := by
  unfold JpegDecoder.read_image
  rw [if_neg (not_not_intro hbuf)]

lemma zuneDecode_violation (opts : DecoderOptions) (input : JpegInput)
    (h : capExceeded opts.max_width input.width ∨ capExceeded opts.max_height input.height) :
    zuneDecode opts input
      = Except.error (DecodeErrors.LargeDimensions (max input.width input.height)) := by
  unfold zuneDecode
  rw [if_pos h]

/-- C6: `from_exif` maps each code 1-8 to exactly the listed variant
(1=identity, 2=flip-horizontal, 3=rotate180, 4=flip-vertical,
5=rotate90-then-flip-horizontal, 6=rotate90, 7=rotate270-then-flip-horizontal,
8=rotate270), maps 0 and every code at least 9 to `none`, and `to_exif` is its
exact inverse in both directions. -/
theorem c6_exif_code_bijection :
    (Orientation.from_exif 1 = some .NoTransforms
      ∧ Orientation.from_exif 2 = some .FlipHorizontal
      ∧ Orientation.from_exif 3 = some .Rotate180
      ∧ Orientation.from_exif 4 = some .FlipVertical
      ∧ Orientation.from_exif 5 = some .Rotate90FlipH
      ∧ Orientation.from_exif 6 = some .Rotate90
      ∧ Orientation.from_exif 7 = some .Rotate270FlipH
      ∧ Orientation.from_exif 8 = some .Rotate270)
    ∧ Orientation.from_exif 0 = none
    ∧ (∀ n : Nat, 9 ≤ n → Orientation.from_exif n = none)
    ∧ (∀ n : Nat, 1 ≤ n → n ≤ 8 →
        Option.map Orientation.to_exif (Orientation.from_exif n) = some n)
    ∧ (∀ o : Orientation, Orientation.from_exif o.to_exif = some o) := by
  refine ⟨by decide, by decide, ?_, ?_, ?_⟩
  · intro n h
    obtain ⟨k, rfl⟩ : ∃ k, n = k + 9 := ⟨n - 9, by omega⟩
    rfl
  · intro n h1 h8
    interval_cases n <;> rfl
  · intro o
    cases o <;> rfl

/-- C6 witness: the round trip at code 3 and the rejection of code 10,
obtained from the statement above at concrete inputs. -/
theorem c6_exif_code_bijection_witness :
    Orientation.from_exif 10 = none
      ∧ Option.map Orientation.to_exif (Orientation.from_exif 3) = some 3 :=
  ⟨c6_exif_code_bijection.2.2.1 10 (by decide),
    c6_exif_code_bijection.2.2.2.1 3 (by decide) (by decide)⟩

/-- C7: `applies_in_place` is true for exactly the four variants
NoTransforms, Rotate180, FlipHorizontal and FlipVertical, and false for
exactly Rotate90, Rotate270, Rotate90FlipH and Rotate270FlipH. -/
theorem c7_applies_in_place_classification :
    ∀ o : Orientation,
      (Orientation.applies_in_place o = true
          ↔ (o = .NoTransforms ∨ o = .Rotate180 ∨ o = .FlipHorizontal ∨ o = .FlipVertical))
        ∧ (Orientation.applies_in_place o = false
          ↔ (o = .Rotate90 ∨ o = .Rotate270 ∨ o = .Rotate90FlipH ∨ o = .Rotate270FlipH)) := by
  intro o
  cases o <;> exact ⟨by decide, by decide⟩

/-- C9: `to_supported_color_space` always lands in {RGB, RGBA, Luma, LumaA}
and is idempotent, so the match in `ColorType::from_jpeg` always hits one of
its four listed arms: the `unreachable!()` branch (modelled as `none` in
`from_jpegOpt`) is never taken and `from_jpeg` is total on every colorspace
value. -/
theorem c9_normalization_never_unreachable :
    ∀ cs : ZuneColorSpace,
      (to_supported_color_space cs = .RGB ∨ to_supported_color_space cs = .RGBA
          ∨ to_supported_color_space cs = .Luma ∨ to_supported_color_space cs = .LumaA)
        ∧ to_supported_color_space (to_supported_color_space cs) = to_supported_color_space cs
        ∧ (ColorType.from_jpegOpt cs).isSome = true
        ∧ ColorType.from_jpegOpt cs = some (ColorType.from_jpeg cs) := by
  intro cs
  cases cs <;> exact ⟨by decide, rfl, rfl, rfl⟩

/-- C4: `ImageError::from_jpeg` is a total translation that assigns every
engine error variant exactly one local category (witnessed by the category
function agreeing with the spec's table on every variant): the engine's
`Unsupported` variant maps to an Unsupported error carrying the feature
description, `LargeDimensions` maps to a Limits error of the dimension
sub-kind, and every other variant maps to a Decoding error wrapping the
original diagnostic. -/
theorem c4_error_translation_total :
    ∀ e : DecodeErrors,
      (ImageError.from_jpeg e).category = specJpegErrorCategory e
        ∧ (∀ desc, e = DecodeErrors.Unsupported desc →
            ImageError.from_jpeg e
              = ImageError.Unsupported (UnsupportedErrorKind.GenericFeature desc))
        ∧ (∀ n, e = DecodeErrors.LargeDimensions n →
            ImageError.from_jpeg e = ImageError.Limits LimitErrorKind.DimensionError)
        ∧ (specJpegErrorCategory e = ErrorCategory.decodingCat →
            ImageError.from_jpeg e = ImageError.Decoding (DecodingDiag.engine e)) := by
  intro e
  cases e <;>
    refine ⟨rfl, ?_, ?_, ?_⟩ <;>
      first
        | (intro x hx; cases hx; rfl)
        | (intro x hx; exact absurd hx (by simp))
        | (intro hx; rfl)
        | (intro hx; simp [specJpegErrorCategory] at hx)

/-- C4 witness: the translation evaluated on one variant of each category. -/
theorem c4_error_translation_total_witness :
    ImageError.from_jpeg (DecodeErrors.Unsupported "x")
        = ImageError.Unsupported (UnsupportedErrorKind.GenericFeature "x")
      ∧ ImageError.from_jpeg (DecodeErrors.LargeDimensions 70000)
        = ImageError.Limits LimitErrorKind.DimensionError
      ∧ ImageError.from_jpeg DecodeErrors.ZeroError
        = ImageError.Decoding (DecodingDiag.engine DecodeErrors.ZeroError) :=
  ⟨(c4_error_translation_total (DecodeErrors.Unsupported "x")).2.1 "x" rfl,
    (c4_error_translation_total (DecodeErrors.LargeDimensions 70000)).2.2.1 70000 rfl,
    (c4_error_translation_total DecodeErrors.ZeroError).2.2.2 rfl⟩

/-- C5: for every native colorspace the engine can report, the advertised
color type is one of the four supported layouts; a native space outside
{RGB, RGBA, Luma, LumaA} is coerced to RGB; and under any limits the output
colorspace the wrapper requests from the engine (the options built by
`new_zune_decoder`, used by both `read_image` and `into_reader`) is exactly
the normalized space behind `color_type()`, whose bytes per pixel equal the
components of the space the engine is asked to produce. -/
theorem c5_colorspace_normalization :
    ∀ (cs : ZuneColorSpace) (l : Limits),
      ∃ ct : ColorType,
        ColorType.from_jpegOpt cs = some ct
          ∧ ColorType.from_jpeg cs = ct
          ∧ (ct = .Rgb8 ∨ ct = .Rgba8 ∨ ct = .L8 ∨ ct = .La8)
          ∧ ((cs = .RGB ∨ cs = .RGBA ∨ cs = .Luma ∨ cs = .LumaA)
              ∨ to_supported_color_space cs = .RGB)
          ∧ (new_zune_decoder cs l).out_colorspace = to_supported_color_space cs
          ∧ ColorType.from_jpegOpt (to_supported_color_space cs) = some ct
          ∧ ct.bytes_per_pixel = ((new_zune_decoder cs l).out_colorspace).nComponents := by
  intro cs l
  refine ⟨ColorType.from_jpeg cs, from_jpegOpt_eq cs, rfl, ?_, ?_,
    new_zune_decoder_out_colorspace cs l, ?_, ?_⟩
  · cases cs <;> decide
  · cases cs <;> decide
  · cases cs <;> rfl
  · rw [new_zune_decoder_out_colorspace cs l]
    cases cs <;> rfl

/-- C2 counterexample: a decoder whose header declares 2x2 receives limits
with `max_image_width = 1 < 2`, yet `set_limits` returns `Ok` (storing the
limits) instead of the Limits error the claim requires. -/
theorem c2_counterexample :
    (1 : Nat) < (JpegDecoder.new ⟨2, 2, .RGB, List.replicate 12 0⟩).width
      ∧ JpegDecoder.set_limits (JpegDecoder.new ⟨2, 2, .RGB, List.replicate 12 0⟩)
          ⟨some 1, none, none⟩
        = Except.ok
            { input := ⟨2, 2, .RGB, List.replicate 12 0⟩
              orig_color_space := .RGB
              width := 2
              height := 2
              limits := ⟨some 1, none, none⟩ } := by
  exact ⟨by decide, rfl⟩

/-- C2 (amended): `JpegDecoder::set_limits` performs no validation at all: for
every decoder state and every limits value it stores the new limits and
returns `Ok(())`; enforcement of the width/height bounds is deferred to the
terminal decode call. -/
theorem c2_set_limits_stores_only :
    ∀ (d : JpegDecoder) (l : Limits),
      JpegDecoder.set_limits d l = Except.ok { d with limits := l } := by
  intro d l
  rfl

/-- C3: `read_image` rejects any buffer whose length differs from the
advertised length `width * height * bytes_per_pixel(color_type())` with a
Decoding error carrying the two lengths - not a Limits error, and without
consulting the decode engine (the result is the same whatever the limits or
the input contents are). -/
theorem c3_read_image_length_mismatch :
    ∀ (d : JpegDecoder) (buf : List Nat),
      buf.length ≠ d.total_bytes →
      JpegDecoder.read_image d buf
        = Except.error
            (ImageError.Decoding (DecodingDiag.lengthMismatch buf.length d.total_bytes)) := by
  intro d buf h
  unfold JpegDecoder.read_image
  rw [if_pos h]

/-- C3 witness: a 2x2 RGB decoder advertises 12 bytes; a buffer of length
`advertised_size - 1 = 11` is rejected with the Decoding length-mismatch
error. -/
theorem c3_read_image_length_mismatch_witness :
    JpegDecoder.read_image (JpegDecoder.new ⟨2, 2, .RGB, List.replicate 12 0⟩)
        (List.replicate 11 0)
      = Except.error (ImageError.Decoding (DecodingDiag.lengthMismatch 11 12)) :=
  c3_read_image_length_mismatch (JpegDecoder.new ⟨2, 2, .RGB, List.replicate 12 0⟩)
    (List.replicate 11 0) (by decide)

/-- C1: for a decoder built on a header declaring width W and height H, if
limits with `max_image_width < W` or `max_image_height < H` are installed via
`set_limits` (which stores them and succeeds), then `into_reader` fails with a
Limits error of the dimension sub-kind, and so does `read_image` for any
correctly-sized buffer: the engine's cap check fires before any pixel payload
is produced, so no decoded buffer ever comes out of the failing call. -/
theorem c1_decode_rejects_oversize :
    ∀ (input : JpegInput) (l : Limits),
      ((∃ mw, l.max_image_width = some mw ∧ mw < input.width)
        ∨ (∃ mh, l.max_image_height = some mh ∧ mh < input.height)) →
      JpegDecoder.set_limits (JpegDecoder.new input) l
          = Except.ok { JpegDecoder.new input with limits := l }
        ∧ JpegDecoder.into_reader { JpegDecoder.new input with limits := l }
          = Except.error (ImageError.Limits LimitErrorKind.DimensionError)
        ∧ (∀ buf : List Nat,
            buf.length
                = JpegDecoder.total_bytes { JpegDecoder.new input with limits := l } →
            JpegDecoder.read_image { JpegDecoder.new input with limits := l } buf
              = Except.error (ImageError.Limits LimitErrorKind.DimensionError)) := by
  intro input l h
  have hcaps := new_zune_decoder_caps input.colorspace l
  have hviol : capExceeded (new_zune_decoder input.colorspace l).max_width input.width
      ∨ capExceeded (new_zune_decoder input.colorspace l).max_height input.height := by
    rcases h with ⟨mw, hmw, hlt⟩ | ⟨mh, hmh, hlt⟩
    · left
      rw [hcaps.1, hmw]
      simpa [capExceeded] using hlt
    · right
      rw [hcaps.2, hmh]
      simpa [capExceeded] using hlt
  have hdec :
      zuneDecode
          (new_zune_decoder
            (JpegDecoder.orig_color_space { JpegDecoder.new input with limits := l })
            (JpegDecoder.limits { JpegDecoder.new input with limits := l }))
          (JpegDecoder.input { JpegDecoder.new input with limits := l })
        = Except.error (DecodeErrors.LargeDimensions (max input.width input.height)) :=
    zuneDecode_violation _ _ hviol
  refine ⟨rfl, ?_, ?_⟩
  · unfold JpegDecoder.into_reader
    rw [hdec]
    rfl
  · intro buf hbuf
    rw [read_image_engine _ _ hbuf, hdec]
    rfl

/-- C1 witness: a 4x4 RGB input under a width cap of 2: `into_reader` and a
`read_image` call with the advertised 48-byte buffer both fail with the
dimension Limits error. -/
theorem c1_decode_rejects_oversize_witness :
    JpegDecoder.into_reader
        { JpegDecoder.new ⟨4, 4, .RGB, List.replicate 48 0⟩ with
            limits := ⟨some 2, none, none⟩ }
        = Except.error (ImageError.Limits LimitErrorKind.DimensionError)
      ∧ JpegDecoder.read_image
          { JpegDecoder.new ⟨4, 4, .RGB, List.replicate 48 0⟩ with
              limits := ⟨some 2, none, none⟩ }
          (List.replicate 48 0)
        = Except.error (ImageError.Limits LimitErrorKind.DimensionError) :=
  ⟨(c1_decode_rejects_oversize ⟨4, 4, .RGB, List.replicate 48 0⟩ ⟨some 2, none, none⟩
      (Or.inl ⟨2, rfl, by decide⟩)).2.1,
    (c1_decode_rejects_oversize ⟨4, 4, .RGB, List.replicate 48 0⟩ ⟨some 2, none, none⟩
      (Or.inl ⟨2, rfl, by decide⟩)).2.2 (List.replicate 48 0) (by decide)⟩

/-- C8: the terminal decode operations never consult `max_alloc`: two limits
values agreeing on the width and height bounds but differing in `max_alloc`
yield identical `read_image` and `into_reader` results on every decoder state
and buffer, because the engine configuration built by `new_zune_decoder`
depends only on the width and height bounds. -/
theorem c8_max_alloc_unused :
    ∀ (d : JpegDecoder) (l1 l2 : Limits) (buf : List Nat),
      l1.max_image_width = l2.max_image_width →
      l1.max_image_height = l2.max_image_height →
      JpegDecoder.read_image { d with limits := l1 } buf
          = JpegDecoder.read_image { d with limits := l2 } buf
        ∧ JpegDecoder.into_reader { d with limits := l1 }
          = JpegDecoder.into_reader { d with limits := l2 } := by
  intro d l1 l2 buf hw hh
  rcases d with ⟨inp, cs, w, ht, lim⟩
  have hopts := new_zune_decoder_congr cs hw hh
  constructor
  · unfold JpegDecoder.read_image
    rw [hopts]
    rfl
  · unfold JpegDecoder.into_reader
    rw [hopts]

/-- C8 witness: on a 1x1 RGB decoder, limits differing only in `max_alloc`
(3 bytes versus unbounded) give the same `read_image` and `into_reader`
results. -/
theorem c8_max_alloc_unused_witness :
    JpegDecoder.read_image
          { JpegDecoder.new ⟨1, 1, .RGB, [7, 8, 9]⟩ with
              limits := ⟨none, none, some 3⟩ }
          [0, 0, 0]
        = JpegDecoder.read_image
          { JpegDecoder.new ⟨1, 1, .RGB, [7, 8, 9]⟩ with
              limits := ⟨none, none, none⟩ }
          [0, 0, 0]
      ∧ JpegDecoder.into_reader
          { JpegDecoder.new ⟨1, 1, .RGB, [7, 8, 9]⟩ with
              limits := ⟨none, none, some 3⟩ }
        = JpegDecoder.into_reader
          { JpegDecoder.new ⟨1, 1, .RGB, [7, 8, 9]⟩ with
              limits := ⟨none, none, none⟩ } :=
  c8_max_alloc_unused (JpegDecoder.new ⟨1, 1, .RGB, [7, 8, 9]⟩)
    ⟨none, none, some 3⟩ ⟨none, none, none⟩ [0, 0, 0] rfl rfl

/-- C10: the specialized `read_to_end` of `JpegReader` is observationally
equivalent to the cursor's default sequential implementation: on every reader
state and initial buffer it appends exactly the bytes remaining after the
current position, returns their count, and leaves the reader exhausted - on
the swap fast path (position 0, empty buffer) just as on the delegating
path. -/
theorem c10_read_to_end_equivalence :
    ∀ (r : JpegReader) (buf : List Nat),
      (JpegReader.read_to_end r buf).1 = buf ++ r.remaining
        ∧ (JpegReader.read_to_end r buf).2.1 = r.remaining.length
        ∧ (JpegReader.read_to_end r buf).2.2.remaining = []
        ∧ (JpegReader.read_to_end r buf).1 = (JpegReader.cursor_read_to_end r buf).1
        ∧ (JpegReader.read_to_end r buf).2.1 = (JpegReader.cursor_read_to_end r buf).2.1
        ∧ (JpegReader.cursor_read_to_end r buf).2.2.remaining = [] := by
  intro r buf
  have hcur : (JpegReader.cursor_read_to_end r buf).2.2.remaining = [] := by
    dsimp [JpegReader.cursor_read_to_end, JpegReader.remaining]
    exact List.drop_eq_nil_of_le (le_max_right _ _)
  unfold JpegReader.read_to_end
  by_cases h : r.pos = 0 ∧ buf = []
  · rw [if_pos h]
    obtain ⟨h0, hb⟩ := h
    subst hb
    refine ⟨?_, ?_, ?_, ?_, ?_, hcur⟩
    · dsimp [JpegReader.remaining]
      rw [h0]
      simp
    · dsimp [JpegReader.remaining]
      rw [h0]
      simp
    · dsimp [JpegReader.remaining]
      simp
    · dsimp [JpegReader.cursor_read_to_end, JpegReader.remaining]
      rw [h0]
      simp
    · dsimp [JpegReader.cursor_read_to_end, JpegReader.remaining]
      rw [h0]
      simp
  · rw [if_neg h]
    exact ⟨rfl, rfl, hcur, rfl, rfl, hcur⟩

end ImageCrate
